import Mathlib

/-!
Verification of the vlei-verifier client library: a shallow embedding of
`src/vlei_verifier_client.py` (the `_VerifierServiceAdapter` transport
binding and the `VerifierClient` facade), together with theorems settling
the specified properties of the request/response translation layer.

The network is modelled as an oracle `send : Request → HttpResponse`
passed to every operation; each operation returns the trace of requests
it issued and log lines it emitted alongside its outcome, so that the
wire contract and the logging side effects are both visible to theorems.
-/

/-- JSON values, as produced by `res.json()` in the Python client.
Objects are association lists of key/value pairs in insertion order,
mirroring Python dict literals. -/
inductive Json where
  | null : Json
  | bool (b : Bool) : Json
  | num (n : Int) : Json
  | str (s : String) : Json
  | arr (elems : List Json) : Json
  | obj (fields : List (String × Json)) : Json

/-- First-match lookup in a JSON object's field list (Python dict keys are
unique, so first-match agrees with dict indexing). -/
def lookupField : List (String × Json) → String → Option Json
  | [], _ => none
  | (k, v) :: rest, key => if k = key then some v else lookupField rest key

/-- Evaluation of `Json.index j key`, which models the Python subscription `j[key]`:
`some v` when `j` is an object containing `key`; `none` when the key is
missing (Python `KeyError`) or `j` is not an object (Python `TypeError`) —
in both cases the Python expression raises. -/
def Json.index : Json → String → Option Json
  | .obj fields, key => lookupField fields key
  | _, _ => none

/-- HTTP methods used by the client. -/
inductive Method where
  | get : Method
  | put : Method
  | post : Method
deriving DecidableEq

/-- An outgoing HTTP request as assembled by a `requests.get/put/post`
call: method, full URL string, extra headers, query parameters
(`params=`), JSON body (`json=`) and raw data body (`data=`). -/
structure Request where
  method : Method
  url : String
  headers : List (String × String)
  params : List (String × String)
  jsonBody : Option Json
  dataBody : Option String

/-- An HTTP response from the remote verifier service: the status code
and the result of parsing the body as JSON (`res.json()`), which is an
error when the body is not valid JSON. -/
structure HttpResponse where
  status_code : Nat
  jsonResult : Except String Json

/-- One `logger.info` trace line, one constructor per call site in the
adapter, carrying exactly the data interpolated into that line. -/
inductive TraceLine where
  | checkLoginSent (aid : String) : TraceLine
  | loginStatus (body : Json) : TraceLine
  | credentialPresentationSent (said : String) : TraceLine
  | credentialPresentationResponse (said : String) (body : Json) : TraceLine
  | signedHeadersSent (aid sig ser : String) : TraceLine
  | signedHeadersResponse (aid sig ser : String) (body : Json) : TraceLine
  | signatureVerificationSent (signature submitter digest : String) : TraceLine
  | addRootOfTrustSent (aid vlei oobi : String) : TraceLine
  | addRootOfTrustResponse (aid vlei oobi : String) (body : Json) : TraceLine

/-- The observable side effects of one operation: the HTTP requests it
issued, in order, and the trace log lines it emitted, in order. -/
structure CallTrace where
  requests : List Request
  log : List TraceLine

/-- State of `_VerifierServiceAdapter`: the base URL and the six endpoint
URLs derived from it in `__init__`. -/
structure VerifierServiceAdapter where
  verifier_base_url : String
  auths_url : String
  presentations_url : String
  reports_url : String
  verify_signed_headers_url : String
  verify_signature_url : String
  add_rot_url : String

/-- Models `_VerifierServiceAdapter.__init__`: stores the base URL (default
`http://localhost:7676`) and derives the endpoint URLs by string
concatenation. -/
def VerifierServiceAdapter.init
    (verifier_base_url : String := "http://localhost:7676") :
    VerifierServiceAdapter where
  verifier_base_url := verifier_base_url
  auths_url := verifier_base_url ++ "/authorizations/"
  presentations_url := verifier_base_url ++ "/presentations/"
  reports_url := verifier_base_url ++ "/reports/"
  verify_signed_headers_url := verifier_base_url ++ "/request/verify/"
  verify_signature_url := verifier_base_url ++ "/signature/verify/"
  add_rot_url := verifier_base_url ++ "/root_of_trust/"

/-- Models `_VerifierServiceAdapter.check_login_request`: logs the pre-call
line, issues one GET to `auths_url + aid` with a JSON content-type
header, logs the parsed response body, and returns the raw response.
Parsing the body for the post-call log line can fail, in which case the
method raises after having sent the request. -/
def VerifierServiceAdapter.check_login_request
    (send : Request → HttpResponse) (self : VerifierServiceAdapter)
    (aid : String) : CallTrace × Except String HttpResponse :=
  let req : Request :=
    { method := .get, url := self.auths_url ++ aid
      headers := [("Content-Type", "application/json")]
      params := [], jsonBody := none, dataBody := none }
  let res := send req
  match res.jsonResult with
  | .ok body => (⟨[req], [.checkLoginSent aid, .loginStatus body]⟩, .ok res)
  | .error e => (⟨[req], [.checkLoginSent aid]⟩, .error e)

/-- Models `_VerifierServiceAdapter.credential_presentation_request`: logs the
pre-call line, issues one PUT to `presentations_url + said` with the
CESR+JSON content type and the raw credential payload as body, logs the
parsed response body, and returns the raw response. -/
def VerifierServiceAdapter.credential_presentation_request
    (send : Request → HttpResponse) (self : VerifierServiceAdapter)
    (said vlei : String) : CallTrace × Except String HttpResponse :=
  let req : Request :=
    { method := .put, url := self.presentations_url ++ said
      headers := [("Content-Type", "application/json+cesr")]
      params := [], jsonBody := none, dataBody := some vlei }
  let res := send req
  match res.jsonResult with
  | .ok body =>
      (⟨[req], [.credentialPresentationSent said,
                .credentialPresentationResponse said body]⟩, .ok res)
  | .error e => (⟨[req], [.credentialPresentationSent said]⟩, .error e)

/-- Models `_VerifierServiceAdapter.verify_signed_headers_request`: logs the
pre-call line, issues one POST to `verify_signed_headers_url + aid` with
query parameters `sig` and `data`, logs the parsed response body, and
returns the raw response. -/
def VerifierServiceAdapter.verify_signed_headers_request
    (send : Request → HttpResponse) (self : VerifierServiceAdapter)
    (aid sig ser : String) : CallTrace × Except String HttpResponse :=
  let req : Request :=
    { method := .post, url := self.verify_signed_headers_url ++ aid
      headers := [], params := [("sig", sig), ("data", ser)]
      jsonBody := none, dataBody := none }
  let res := send req
  match res.jsonResult with
  | .ok body =>
      (⟨[req], [.signedHeadersSent aid sig ser,
                .signedHeadersResponse aid sig ser body]⟩, .ok res)
  | .error e => (⟨[req], [.signedHeadersSent aid sig ser]⟩, .error e)

/-- Models `_VerifierServiceAdapter.verify_signature_request`: logs the
pre-call line, issues one POST to `verify_signature_url` with the
three-key JSON payload, and returns the raw response. Unlike the other
four operations it emits no post-call log line and never parses the
response body. -/
def VerifierServiceAdapter.verify_signature_request
    (send : Request → HttpResponse) (self : VerifierServiceAdapter)
    (signature submitter digest : String) :
    CallTrace × Except String HttpResponse :=
  let payload : Json := .obj
    [("signature", .str signature), ("signer_aid", .str submitter),
     ("non_prefixed_digest", .str digest)]
  let req : Request :=
    { method := .post, url := self.verify_signature_url
      headers := [], params := [], jsonBody := some payload, dataBody := none }
  (⟨[req], [.signatureVerificationSent signature submitter digest]⟩,
   .ok (send req))

/-- Models `_VerifierServiceAdapter.add_root_of_trust_request`: logs the
pre-call line, issues one POST to `add_rot_url + aid` with a JSON
content-type header and the two-key JSON payload, logs the parsed
response body, and returns the raw response. -/
def VerifierServiceAdapter.add_root_of_trust_request
    (send : Request → HttpResponse) (self : VerifierServiceAdapter)
    (aid vlei oobi : String) : CallTrace × Except String HttpResponse :=
  let payload : Json := .obj [("vlei", .str vlei), ("oobi", .str oobi)]
  let req : Request :=
    { method := .post, url := self.add_rot_url ++ aid
      headers := [("Content-Type", "application/json")]
      params := [], jsonBody := some payload, dataBody := none }
  let res := send req
  match res.jsonResult with
  | .ok body =>
      (⟨[req], [.addRootOfTrustSent aid vlei oobi,
                .addRootOfTrustResponse aid vlei oobi body]⟩, .ok res)
  | .error e => (⟨[req], [.addRootOfTrustSent aid vlei oobi]⟩, .error e)

/-- Modelled from the spec: `VerifierResponse` is imported from
`src.utils`, which is absent from the sources. The spec's Normalized
Result carries exactly three fields — the integer HTTP status `code`,
the parsed `body`, and the `message` extracted from the body's `msg`
field. The container performs no validation of the stored values, so
`message` holds whatever JSON value the `msg` key mapped to. -/
structure VerifierResponse where
  code : Nat
  body : Json
  message : Json

/-- The normalization step shared by every facade method: parse the raw
response body (`res.json()`), extract its `msg` field, and build the
`VerifierResponse`; raises when parsing fails or the key is missing. -/
def normalizeResponse (res : HttpResponse) : Except String VerifierResponse :=
  match res.jsonResult with
  | .error e => .error e
  | .ok body =>
    match body.index "msg" with
    | some m => .ok ⟨res.status_code, body, m⟩
    | none => .error "KeyError: msg"

/-- State of `VerifierClient`: the base URL and the adapter built
from it. -/
structure VerifierClient where
  verifier_base_url : String
  verifier_service_adapter : VerifierServiceAdapter

/-- Models `VerifierClient.__init__`: stores the base URL (default
`http://localhost:7676`) and constructs the adapter from it. -/
def VerifierClient.init
    (verifier_base_url : String := "http://localhost:7676") :
    VerifierClient where
  verifier_base_url := verifier_base_url
  verifier_service_adapter := VerifierServiceAdapter.init verifier_base_url

/-- Models `VerifierClient.check_login`: delegates to the adapter and
normalizes the raw response. -/
def VerifierClient.check_login
    (send : Request → HttpResponse) (self : VerifierClient)
    (aid : String) : CallTrace × Except String VerifierResponse :=
  let r := self.verifier_service_adapter.check_login_request send aid
  (r.1, match r.2 with
        | .error e => .error e
        | .ok res => normalizeResponse res)

/-- Models `VerifierClient.login`: delegates to the adapter's credential
presentation request and normalizes the raw response. -/
def VerifierClient.login
    (send : Request → HttpResponse) (self : VerifierClient)
    (said vlei : String) : CallTrace × Except String VerifierResponse :=
  let r := self.verifier_service_adapter.credential_presentation_request
      send said vlei
  (r.1, match r.2 with
        | .error e => .error e
        | .ok res => normalizeResponse res)

/-- Models `VerifierClient.verify_signed_headers`: delegates to the adapter and
normalizes the raw response. -/
def VerifierClient.verify_signed_headers
    (send : Request → HttpResponse) (self : VerifierClient)
    (aid sig ser : String) : CallTrace × Except String VerifierResponse :=
  let r := self.verifier_service_adapter.verify_signed_headers_request
      send aid sig ser
  (r.1, match r.2 with
        | .error e => .error e
        | .ok res => normalizeResponse res)

/-- Models `VerifierClient.add_root_of_trust`: delegates to the adapter and
normalizes the raw response. -/
def VerifierClient.add_root_of_trust
    (send : Request → HttpResponse) (self : VerifierClient)
    (aid vlei oobi : String) : CallTrace × Except String VerifierResponse :=
  let r := self.verifier_service_adapter.add_root_of_trust_request
      send aid vlei oobi
  (r.1, match r.2 with
        | .error e => .error e
        | .ok res => normalizeResponse res)

/-- Models `VerifierClient.verify_signature`: delegates to the adapter and
normalizes the raw response. -/
def VerifierClient.verify_signature
    (send : Request → HttpResponse) (self : VerifierClient)
    (signature signer_aid non_prefixed_digest : String) :
    CallTrace × Except String VerifierResponse :=
  let r := self.verifier_service_adapter.verify_signature_request
      send signature signer_aid non_prefixed_digest
  (r.1, match r.2 with
        | .error e => .error e
        | .ok res => normalizeResponse res)

/-- The simulated remote endpoint of the spec's testable properties: a
network oracle answering every request with the same status code and the
same valid-JSON body. -/
def constNet (s : Nat) (b : Json) : Request → HttpResponse :=
  fun _ => ⟨s, .ok b⟩

/-- A network oracle whose response body fails to parse as JSON. -/
def badJsonNet (s : Nat) (e : String) : Request → HttpResponse :=
  fun _ => ⟨s, .error e⟩

/-- C1: for each of the five facade operations, when the HTTP call
returns status `s` and a JSON body `b` whose `msg` field is `m`, the
operation returns the normalized result with `code = s`, `body = b` and
`message = m`, and nothing else (a `VerifierResponse` has exactly these
three fields). -/
theorem C1_facade_normalizes (s : Nat) (b m : Json)
    (base aid said vlei hAid hSig hSer sg sub dg rAid rVlei oobi : String)
    (hm : b.index "msg" = some m) :
    ((VerifierClient.init base).check_login (constNet s b) aid).2
        = .ok ⟨s, b, m⟩ ∧
    ((VerifierClient.init base).login (constNet s b) said vlei).2
        = .ok ⟨s, b, m⟩ ∧
    ((VerifierClient.init base).verify_signed_headers (constNet s b)
        hAid hSig hSer).2 = .ok ⟨s, b, m⟩ ∧
    ((VerifierClient.init base).verify_signature (constNet s b)
        sg sub dg).2 = .ok ⟨s, b, m⟩ ∧
    ((VerifierClient.init base).add_root_of_trust (constNet s b)
        rAid rVlei oobi).2 = .ok ⟨s, b, m⟩ := by
  refine ⟨?_, ?_, ?_, ?_, ?_⟩ <;>
    simp [VerifierClient.check_login, VerifierClient.login,
      VerifierClient.verify_signed_headers, VerifierClient.verify_signature,
      VerifierClient.add_root_of_trust,
      VerifierServiceAdapter.check_login_request,
      VerifierServiceAdapter.credential_presentation_request,
      VerifierServiceAdapter.verify_signed_headers_request,
      VerifierServiceAdapter.verify_signature_request,
      VerifierServiceAdapter.add_root_of_trust_request,
      constNet, normalizeResponse, hm]

/-- Witness for C1 at a concrete input: status 200 and body
`{"msg": "ok", "extra": 1}`. -/
theorem C1_facade_normalizes_witness :
    ((VerifierClient.init "http://localhost:7676").check_login
        (constNet 200 (Json.obj [("msg", Json.str "ok"), ("extra", Json.num 1)]))
        "EAbc123").2
      = .ok ⟨200, Json.obj [("msg", Json.str "ok"), ("extra", Json.num 1)],
             Json.str "ok"⟩ ∧
    ((VerifierClient.init "http://localhost:7676").login
        (constNet 200 (Json.obj [("msg", Json.str "ok"), ("extra", Json.num 1)]))
        "ESaid" "vlei-cesr").2
      = .ok ⟨200, Json.obj [("msg", Json.str "ok"), ("extra", Json.num 1)],
             Json.str "ok"⟩ ∧
    ((VerifierClient.init "http://localhost:7676").verify_signed_headers
        (constNet 200 (Json.obj [("msg", Json.str "ok"), ("extra", Json.num 1)]))
        "EAid" "sig1" "ser1").2
      = .ok ⟨200, Json.obj [("msg", Json.str "ok"), ("extra", Json.num 1)],
             Json.str "ok"⟩ ∧
    ((VerifierClient.init "http://localhost:7676").verify_signature
        (constNet 200 (Json.obj [("msg", Json.str "ok"), ("extra", Json.num 1)]))
        "sig1" "EAid" "deadbeef").2
      = .ok ⟨200, Json.obj [("msg", Json.str "ok"), ("extra", Json.num 1)],
             Json.str "ok"⟩ ∧
    ((VerifierClient.init "http://localhost:7676").add_root_of_trust
        (constNet 200 (Json.obj [("msg", Json.str "ok"), ("extra", Json.num 1)]))
        "EAid" "vlei-data" "http://oobi").2
      = .ok ⟨200, Json.obj [("msg", Json.str "ok"), ("extra", Json.num 1)],
             Json.str "ok"⟩ :=
  C1_facade_normalizes 200 _ (Json.str "ok") "http://localhost:7676"
    "EAbc123" "ESaid" "vlei-cesr" "EAid" "sig1" "ser1" "sig1" "EAid"
    "deadbeef" "EAid" "vlei-data" "http://oobi" rfl

/-- C2: a non-2xx status is passed through as data — with the simulated
endpoint answering HTTP 400 and body `{"msg": "bad"}`, every facade
operation returns normally with `code = 400` and `message = "bad"`. -/
theorem C2_non2xx_passthrough
    (base aid said vlei hAid hSig hSer sg sub dg rAid rVlei oobi : String) :
    ((VerifierClient.init base).check_login
        (constNet 400 (Json.obj [("msg", Json.str "bad")])) aid).2
      = .ok ⟨400, Json.obj [("msg", Json.str "bad")], Json.str "bad"⟩ ∧
    ((VerifierClient.init base).login
        (constNet 400 (Json.obj [("msg", Json.str "bad")])) said vlei).2
      = .ok ⟨400, Json.obj [("msg", Json.str "bad")], Json.str "bad"⟩ ∧
    ((VerifierClient.init base).verify_signed_headers
        (constNet 400 (Json.obj [("msg", Json.str "bad")])) hAid hSig hSer).2
      = .ok ⟨400, Json.obj [("msg", Json.str "bad")], Json.str "bad"⟩ ∧
    ((VerifierClient.init base).verify_signature
        (constNet 400 (Json.obj [("msg", Json.str "bad")])) sg sub dg).2
      = .ok ⟨400, Json.obj [("msg", Json.str "bad")], Json.str "bad"⟩ ∧
    ((VerifierClient.init base).add_root_of_trust
        (constNet 400 (Json.obj [("msg", Json.str "bad")])) rAid rVlei oobi).2
      = .ok ⟨400, Json.obj [("msg", Json.str "bad")], Json.str "bad"⟩ := by
  refine ⟨?_, ?_, ?_, ?_, ?_⟩ <;>
    simp [VerifierClient.check_login, VerifierClient.login,
      VerifierClient.verify_signed_headers, VerifierClient.verify_signature,
      VerifierClient.add_root_of_trust,
      VerifierServiceAdapter.check_login_request,
      VerifierServiceAdapter.credential_presentation_request,
      VerifierServiceAdapter.verify_signed_headers_request,
      VerifierServiceAdapter.verify_signature_request,
      VerifierServiceAdapter.add_root_of_trust_request,
      constNet, normalizeResponse, Json.index, lookupField]

/-- C3: when the remote body is valid structured data without a `msg`
field, every facade operation propagates a failure instead of returning
a normalized result with a fabricated message; this includes
`verify_signature`. -/
theorem C3_missing_msg_fails (s : Nat) (b : Json)
    (base aid said vlei hAid hSig hSer sg sub dg rAid rVlei oobi : String)
    (hb : b.index "msg" = none) :
    ((VerifierClient.init base).check_login (constNet s b) aid).2
        = .error "KeyError: msg" ∧
    ((VerifierClient.init base).login (constNet s b) said vlei).2
        = .error "KeyError: msg" ∧
    ((VerifierClient.init base).verify_signed_headers (constNet s b)
        hAid hSig hSer).2 = .error "KeyError: msg" ∧
    ((VerifierClient.init base).verify_signature (constNet s b)
        sg sub dg).2 = .error "KeyError: msg" ∧
    ((VerifierClient.init base).add_root_of_trust (constNet s b)
        rAid rVlei oobi).2 = .error "KeyError: msg" := by
  refine ⟨?_, ?_, ?_, ?_, ?_⟩ <;>
    simp [VerifierClient.check_login, VerifierClient.login,
      VerifierClient.verify_signed_headers, VerifierClient.verify_signature,
      VerifierClient.add_root_of_trust,
      VerifierServiceAdapter.check_login_request,
      VerifierServiceAdapter.credential_presentation_request,
      VerifierServiceAdapter.verify_signed_headers_request,
      VerifierServiceAdapter.verify_signature_request,
      VerifierServiceAdapter.add_root_of_trust_request,
      constNet, normalizeResponse, hb]

/-- Witness for C3 at a concrete input: status 200 and body
`{"status": "done"}`, which lacks a `msg` field. -/
theorem C3_missing_msg_fails_witness :
    ((VerifierClient.init "http://localhost:7676").check_login
        (constNet 200 (Json.obj [("status", Json.str "done")])) "EAbc123").2
        = .error "KeyError: msg" ∧
    ((VerifierClient.init "http://localhost:7676").login
        (constNet 200 (Json.obj [("status", Json.str "done")]))
        "ESaid" "vlei-cesr").2 = .error "KeyError: msg" ∧
    ((VerifierClient.init "http://localhost:7676").verify_signed_headers
        (constNet 200 (Json.obj [("status", Json.str "done")]))
        "EAid" "sig1" "ser1").2 = .error "KeyError: msg" ∧
    ((VerifierClient.init "http://localhost:7676").verify_signature
        (constNet 200 (Json.obj [("status", Json.str "done")]))
        "sig1" "EAid" "deadbeef").2 = .error "KeyError: msg" ∧
    ((VerifierClient.init "http://localhost:7676").add_root_of_trust
        (constNet 200 (Json.obj [("status", Json.str "done")]))
        "EAid" "vlei-data" "http://oobi").2 = .error "KeyError: msg" :=
  C3_missing_msg_fails 200 _ "http://localhost:7676" "EAbc123" "ESaid"
    "vlei-cesr" "EAid" "sig1" "ser1" "sig1" "EAid" "deadbeef" "EAid"
    "vlei-data" "http://oobi" rfl

/-- C4: for every aid and every network behaviour, `check_login` issues
exactly one HTTP GET whose URL is the configured base URL followed by
`/authorizations/` followed by the aid, with no other requests; in
particular `check_login "EAbc123"` targets
`base ++ "/authorizations/EAbc123"`. -/
theorem C4_check_login_url (send : Request → HttpResponse)
    (base aid : String) :
    ((VerifierClient.init base).check_login send aid).1.requests =
      [{ method := .get, url := base ++ "/authorizations/" ++ aid
         headers := [("Content-Type", "application/json")]
         params := [], jsonBody := none, dataBody := none }] := by
  simp only [VerifierClient.check_login, VerifierClient.init,
    VerifierServiceAdapter.check_login_request, VerifierServiceAdapter.init]
  split <;> rfl

/-- C5: for all argument strings and every network behaviour,
`verify_signature` issues exactly one HTTP POST to
`base ++ "/signature/verify/"` whose JSON body is exactly the three-key
mapping of `signature`, `signer_aid` and `non_prefixed_digest`. -/
theorem C5_verify_signature_request (send : Request → HttpResponse)
    (base signature signer_aid non_prefixed_digest : String) :
    ((VerifierClient.init base).verify_signature send signature
        signer_aid non_prefixed_digest).1.requests =
      [{ method := .post, url := base ++ "/signature/verify/"
         headers := [], params := []
         jsonBody := some (Json.obj
           [("signature", Json.str signature),
            ("signer_aid", Json.str signer_aid),
            ("non_prefixed_digest", Json.str non_prefixed_digest)])
         dataBody := none }] := by
  rfl

/-- C6: for all argument strings and every network behaviour,
`add_root_of_trust` issues exactly one HTTP POST to
`base ++ "/root_of_trust/" ++ aid` whose JSON body is exactly the
two-key mapping of `vlei` and `oobi`. -/
theorem C6_add_root_of_trust_request (send : Request → HttpResponse)
    (base aid vlei oobi : String) :
    ((VerifierClient.init base).add_root_of_trust send aid vlei
        oobi).1.requests =
      [{ method := .post, url := base ++ "/root_of_trust/" ++ aid
         headers := [("Content-Type", "application/json")]
         params := []
         jsonBody := some (Json.obj
           [("vlei", Json.str vlei), ("oobi", Json.str oobi)])
         dataBody := none }] := by
  simp only [VerifierClient.add_root_of_trust, VerifierClient.init,
    VerifierServiceAdapter.add_root_of_trust_request,
    VerifierServiceAdapter.init]
  split <;> rfl

/-- Counterexample to C7: `verify_signature_request` emits only the
pre-call trace line — its log at a concrete call has length 1, not 2,
even though the response parses fine. -/
theorem C7_counterexample :
    ((VerifierServiceAdapter.init "http://localhost:7676").verify_signature_request
        (constNet 200 (Json.obj [("msg", Json.str "ok")]))
        "sig1" "EAid" "deadbeef").1.log
      = [TraceLine.signatureVerificationSent "sig1" "EAid" "deadbeef"] ∧
    ((VerifierServiceAdapter.init "http://localhost:7676").verify_signature_request
        (constNet 200 (Json.obj [("msg", Json.str "ok")]))
        "sig1" "EAid" "deadbeef").1.log.length ≠ 2 := by
  exact ⟨rfl, by decide⟩

/-- C7 amended: when the simulated endpoint returns a body that parses
as JSON, four of the five transport-binding operations emit exactly two
trace lines (pre-call and post-call); `verify_signature_request` emits
only the single pre-call line. In every case the raw response is
returned unchanged — logging has no effect on the returned value. -/
theorem C7_amended_trace_lines (s : Nat) (b : Json)
    (base aid said vlei hAid hSig hSer sg sub dg rAid rVlei oobi : String) :
    ((VerifierServiceAdapter.init base).check_login_request
        (constNet s b) aid).1.log
      = [.checkLoginSent aid, .loginStatus b] ∧
    ((VerifierServiceAdapter.init base).credential_presentation_request
        (constNet s b) said vlei).1.log
      = [.credentialPresentationSent said,
         .credentialPresentationResponse said b] ∧
    ((VerifierServiceAdapter.init base).verify_signed_headers_request
        (constNet s b) hAid hSig hSer).1.log
      = [.signedHeadersSent hAid hSig hSer,
         .signedHeadersResponse hAid hSig hSer b] ∧
    ((VerifierServiceAdapter.init base).add_root_of_trust_request
        (constNet s b) rAid rVlei oobi).1.log
      = [.addRootOfTrustSent rAid rVlei oobi,
         .addRootOfTrustResponse rAid rVlei oobi b] ∧
    ((VerifierServiceAdapter.init base).verify_signature_request
        (constNet s b) sg sub dg).1.log
      = [.signatureVerificationSent sg sub dg] ∧
    ((VerifierServiceAdapter.init base).check_login_request
        (constNet s b) aid).2 = .ok ⟨s, .ok b⟩ ∧
    ((VerifierServiceAdapter.init base).credential_presentation_request
        (constNet s b) said vlei).2 = .ok ⟨s, .ok b⟩ ∧
    ((VerifierServiceAdapter.init base).verify_signed_headers_request
        (constNet s b) hAid hSig hSer).2 = .ok ⟨s, .ok b⟩ ∧
    ((VerifierServiceAdapter.init base).add_root_of_trust_request
        (constNet s b) rAid rVlei oobi).2 = .ok ⟨s, .ok b⟩ ∧
    ((VerifierServiceAdapter.init base).verify_signature_request
        (constNet s b) sg sub dg).2 = .ok ⟨s, .ok b⟩ := by
  refine ⟨?_, ?_, ?_, ?_, ?_, ?_, ?_, ?_, ?_, ?_⟩ <;> rfl

/-- C8: the base URL defaults to `http://localhost:7676`, every endpoint
URL field of the adapter is the base followed by its fixed path segment,
and every request issued by every operation targets a URL derived from
that same base by concatenation. (Immutability of the base holds by
construction in this embedding: the client value is never rebuilt and
every operation reads, never writes, its fields.) -/
theorem C8_base_url_derivation (base : String) (send : Request → HttpResponse)
    (aid said vlei hAid hSig hSer sg sub dg rAid rVlei oobi : String) :
    (VerifierClient.init).verifier_base_url = "http://localhost:7676" ∧
    (VerifierClient.init).verifier_service_adapter.verifier_base_url
      = "http://localhost:7676" ∧
    (VerifierClient.init base).verifier_service_adapter.auths_url
      = base ++ "/authorizations/" ∧
    (VerifierClient.init base).verifier_service_adapter.presentations_url
      = base ++ "/presentations/" ∧
    (VerifierClient.init base).verifier_service_adapter.reports_url
      = base ++ "/reports/" ∧
    (VerifierClient.init base).verifier_service_adapter.verify_signed_headers_url
      = base ++ "/request/verify/" ∧
    (VerifierClient.init base).verifier_service_adapter.verify_signature_url
      = base ++ "/signature/verify/" ∧
    (VerifierClient.init base).verifier_service_adapter.add_rot_url
      = base ++ "/root_of_trust/" ∧
    ((VerifierClient.init base).check_login send aid).1.requests.map
        (fun r => r.url) = [base ++ "/authorizations/" ++ aid] ∧
    ((VerifierClient.init base).login send said vlei).1.requests.map
        (fun r => r.url) = [base ++ "/presentations/" ++ said] ∧
    ((VerifierClient.init base).verify_signed_headers send
        hAid hSig hSer).1.requests.map
        (fun r => r.url) = [base ++ "/request/verify/" ++ hAid] ∧
    ((VerifierClient.init base).verify_signature send
        sg sub dg).1.requests.map
        (fun r => r.url) = [base ++ "/signature/verify/"] ∧
    ((VerifierClient.init base).add_root_of_trust send
        rAid rVlei oobi).1.requests.map
        (fun r => r.url) = [base ++ "/root_of_trust/" ++ rAid] := by
  refine ⟨rfl, rfl, rfl, rfl, rfl, rfl, rfl, rfl, ?_, ?_, ?_, ?_, ?_⟩ <;>
  · simp only [VerifierClient.check_login, VerifierClient.login,
      VerifierClient.verify_signed_headers, VerifierClient.verify_signature,
      VerifierClient.add_root_of_trust, VerifierClient.init,
      VerifierServiceAdapter.check_login_request,
      VerifierServiceAdapter.credential_presentation_request,
      VerifierServiceAdapter.verify_signed_headers_request,
      VerifierServiceAdapter.verify_signature_request,
      VerifierServiceAdapter.add_root_of_trust_request,
      VerifierServiceAdapter.init]
    first
    | rfl
    | split <;> rfl

/-- C9: the check-login GET carries a `Content-Type: application/json`
header although the request has no body of any kind (no JSON body, no
data body). -/
theorem C9_check_login_header_without_body (send : Request → HttpResponse)
    (base aid : String) :
    ((VerifierClient.init base).check_login send aid).1.requests.map
        (fun r => r.method) = [Method.get] ∧
    ((VerifierClient.init base).check_login send aid).1.requests.map
        (fun r => r.headers) = [[("Content-Type", "application/json")]] ∧
    ((VerifierClient.init base).check_login send aid).1.requests.map
        (fun r => r.jsonBody) = [none] ∧
    ((VerifierClient.init base).check_login send aid).1.requests.map
        (fun r => r.dataBody) = [none] := by
  refine ⟨?_, ?_, ?_, ?_⟩ <;>
  · simp only [VerifierClient.check_login, VerifierClient.init,
      VerifierServiceAdapter.check_login_request, VerifierServiceAdapter.init]
    split <;> rfl

/-- Predicate used by the segment-encoding comparison definition: the
RFC 3986 unreserved characters, which a URL encoder leaves intact. -/
def isUnreserved (c : Char) : Bool :=
  c.isAlphanum || c = '-' || c = '.' || c = '_' || c = '~'

/-- Uppercase hexadecimal digit for a value below 16. -/
def hexDigit (n : Nat) : Char :=
  if n < 10 then Char.ofNat (48 + n) else Char.ofNat (55 + n)

/-- Percent-encoding of one character (ASCII range suffices for the
concrete comparisons below). -/
def encodeChar (c : Char) : String :=
  if isUnreserved c then String.singleton c
  else "%" ++ String.singleton (hexDigit (c.toNat / 16 % 16))
       ++ String.singleton (hexDigit (c.toNat % 16))

/-- Comparison definition for C10, written from the claim's words rather
than the source: the identifier rendered as a single URL path segment,
with every reserved character percent-encoded. -/
def encodeSegment (s : String) : String :=
  s.data.foldl (fun acc c => acc ++ encodeChar c) ""

/-- C10: every dynamic URL segment is inserted by plain string
concatenation with no escaping, in all four operations that have one;
consequently for the identifier `a/b?c` the resulting URL differs from
the base plus fixed path plus the identifier encoded as a single path
segment. -/
theorem C10_no_url_escaping (send : Request → HttpResponse)
    (base aid said hAid hSig hSer rAid rVlei oobi vlei : String) :
    ((VerifierClient.init base).check_login send aid).1.requests.map
        (fun r => r.url) = [base ++ "/authorizations/" ++ aid] ∧
    ((VerifierClient.init base).login send said vlei).1.requests.map
        (fun r => r.url) = [base ++ "/presentations/" ++ said] ∧
    ((VerifierClient.init base).verify_signed_headers send
        hAid hSig hSer).1.requests.map
        (fun r => r.url) = [base ++ "/request/verify/" ++ hAid] ∧
    ((VerifierClient.init base).add_root_of_trust send
        rAid rVlei oobi).1.requests.map
        (fun r => r.url) = [base ++ "/root_of_trust/" ++ rAid] ∧
    encodeSegment "a/b?c" = "a%2Fb%3Fc" ∧
    ((VerifierClient.init "http://h").check_login send "a/b?c").1.requests.map
        (fun r => r.url)
      ≠ ["http://h" ++ "/authorizations/" ++ encodeSegment "a/b?c"] := by
  refine ⟨?_, ?_, ?_, ?_, by decide, ?_⟩ <;>
  · simp only [VerifierClient.check_login, VerifierClient.login,
      VerifierClient.verify_signed_headers,
      VerifierClient.add_root_of_trust, VerifierClient.init,
      VerifierServiceAdapter.check_login_request,
      VerifierServiceAdapter.credential_presentation_request,
      VerifierServiceAdapter.verify_signed_headers_request,
      VerifierServiceAdapter.add_root_of_trust_request,
      VerifierServiceAdapter.init]
    split <;> (dsimp only []; first | rfl | decide)
